import Mathlib

/-!
A verification development for the WebChatter conversation-tree client.

Shallow embedding of the conversation-tree core of the WebChatter library
(`webchatter/webchatter.py` and `webchatter/request.py`):

* Python/JSON values are modelled by the inductive `PyVal` (`None`, strings,
  lists, dicts with string keys), with Python truthiness and the dict/list
  access primitives (`d.get(k)`, `d[k]`, `v[0]`, `d[k] = x`) as explicit
  `Except`-valued functions that fail exactly where the Python operation
  raises.
* `Node.simplify` becomes `simplify : PyVal → Except Err SimpleNode`.
* A `WebChat` session is a record of the `_base_url`, `_access_token`,
  `backend_url`, `_chat_id`, `_node_id`, `_root_id`, `_tree_id`, `_que_id`
  attributes plus the `_mapping` store (an insertion-ordered association
  list with Python-dict update semantics).
* `WebChat.ask` is embedded as a function from the pre-state (plus the two
  freshly drawn uuid4 strings and the outcome of the `chat_completion`
  network call) to a pair (outcome, post-state); exceptions raised before
  the first attribute mutation return the pre-state, while the dict-key
  hashing `TypeError` raised inside the store commit (an unhashable node
  id) returns the partially mutated state, exactly as the source does.
* The stream-splitting tail of `request.continue_chat`
  (`response.text.split("data:")[-3:-1]`) is embedded with the exact slice
  semantics of Python.
-/

namespace WebChatter

/-- A Python/JSON value as used by the WebChatter core: `None`, a string,
a list, or a dict with string keys (insertion ordered, unique keys). -/
inductive PyVal where
  | none
  | str (s : String)
  | list (xs : List PyVal)
  | dict (xs : List (String × PyVal))
deriving Repr

mutual

/-- Decidable structural equality on `PyVal` (Python `==` on these value
shapes), written by hand since `deriving` does not handle the nesting. -/
def PyVal.decEq : (a b : PyVal) → Decidable (a = b)
  | .none, .none => isTrue rfl
  | .none, .str _ | .none, .list _ | .none, .dict _ => isFalse (by intro h; cases h)
  | .str _, .none | .str _, .list _ | .str _, .dict _ => isFalse (by intro h; cases h)
  | .list _, .none | .list _, .str _ | .list _, .dict _ => isFalse (by intro h; cases h)
  | .dict _, .none | .dict _, .str _ | .dict _, .list _ => isFalse (by intro h; cases h)
  | .str a, .str b =>
    if h : a = b then isTrue (by rw [h]) else isFalse (by intro hh; cases hh; exact h rfl)
  | .list xs, .list ys =>
    match PyVal.decEqL xs ys with
    | isTrue h => isTrue (by rw [h])
    | isFalse h => isFalse (by intro hh; cases hh; exact h rfl)
  | .dict xs, .dict ys =>
    match PyVal.decEqD xs ys with
    | isTrue h => isTrue (by rw [h])
    | isFalse h => isFalse (by intro hh; cases hh; exact h rfl)

/-- Elementwise decidable equality of `PyVal` lists. -/
def PyVal.decEqL : (xs ys : List PyVal) → Decidable (xs = ys)
  | [], [] => isTrue rfl
  | [], _ :: _ => isFalse (by intro h; cases h)
  | _ :: _, [] => isFalse (by intro h; cases h)
  | x :: xs, y :: ys =>
    match PyVal.decEq x y, PyVal.decEqL xs ys with
    | isTrue h1, isTrue h2 => isTrue (by rw [h1, h2])
    | isFalse h1, _ => isFalse (by intro hh; cases hh; exact h1 rfl)
    | _, isFalse h2 => isFalse (by intro hh; cases hh; exact h2 rfl)

/-- Entrywise decidable equality of `PyVal` dict entry lists. -/
def PyVal.decEqD : (xs ys : List (String × PyVal)) → Decidable (xs = ys)
  | [], [] => isTrue rfl
  | [], _ :: _ => isFalse (by intro h; cases h)
  | _ :: _, [] => isFalse (by intro h; cases h)
  | (k, v) :: xs, (l, w) :: ys =>
    if hk : k = l then
      match PyVal.decEq v w, PyVal.decEqD xs ys with
      | isTrue h1, isTrue h2 => isTrue (by rw [hk, h1, h2])
      | isFalse h1, _ => isFalse (by intro hh; cases hh; exact h1 rfl)
      | _, isFalse h2 => isFalse (by intro hh; cases hh; exact h2 rfl)
    else isFalse (by intro hh; cases hh; exact hk rfl)

end

instance : DecidableEq PyVal := PyVal.decEq

/-- The Python exceptions (and the error taxonomy of the spec, for the network
layer and the spec-modelled `goto`) that the embedded operations can raise. -/
inductive Err where
  | attributeError
  | keyError
  | typeError
  | indexError
  | assertionError
  | remoteCallError
  | unknownNodeError
  | invalidTargetError
deriving Repr, DecidableEq

instance {ε : Type u} {α : Type v} [DecidableEq ε] [DecidableEq α] :
    DecidableEq (Except ε α) := fun a b =>
  match a, b with
  | .ok x, .ok y => decidable_of_iff (x = y) (by simp)
  | .error e, .error f => decidable_of_iff (e = f) (by simp)
  | .ok _, .error _ => isFalse (by simp)
  | .error _, .ok _ => isFalse (by simp)

/-- Python truthiness of a `PyVal` (`None`, `""`, `[]`, `{ }` are falsy). -/
def truthy : PyVal → Bool
  | .none => false
  | .str s => !(s == "")
  | .list xs => !xs.isEmpty
  | .dict xs => !xs.isEmpty

/-- Lookup in a dict entry list (first matching key). -/
def dFind : List (String × PyVal) → String → Option PyVal
  | [], _ => Option.none
  | (k, v) :: rest, key => if k = key then some v else dFind rest key

/-- Python `d.get(key)` on a dict: the stored value, or `None` when absent. -/
def dGet (d : List (String × PyVal)) (key : String) : PyVal :=
  (dFind d key).getD PyVal.none

/-- Python `d[key]` on a dict: `KeyError` when the key is absent. -/
def pyIndexD (d : List (String × PyVal)) (key : String) : Except Err PyVal :=
  match dFind d key with
  | some v => .ok v
  | Option.none => .error .keyError

/-- Python `v[key]` with a string key: dict lookup, `TypeError` on any
non-dict value (`None`, `str`, `list` all raise `TypeError` here). -/
def pyIndexS (v : PyVal) (key : String) : Except Err PyVal :=
  match v with
  | .dict d => pyIndexD d key
  | _ => .error .typeError

/-- Python `v[0]`: head of a list (`IndexError` when empty), first character
of a string, `TypeError` otherwise. -/
def pyIndex0 : PyVal → Except Err PyVal
  | .list [] => .error .indexError
  | .list (x :: _) => .ok x
  | .str s =>
    match s.data with
    | [] => .error .indexError
    | c :: _ => .ok (.str ⟨[c]⟩)
  | _ => .error .typeError

/-- In-place update of a dict entry list: replace the first matching key,
else append (Python dict assignment semantics, insertion order kept). -/
def assocSet : List (String × PyVal) → String → PyVal → List (String × PyVal)
  | [], key, x => [(key, x)]
  | (k, v) :: rest, key, x =>
    if k = key then (key, x) :: rest else (k, v) :: assocSet rest key x

/-- Python `v[key] = x`: dict item assignment, `TypeError` on non-dicts. -/
def dset (v : PyVal) (key : String) (x : PyVal) : Except Err PyVal :=
  match v with
  | .dict d => .ok (.dict (assocSet d key x))
  | _ => .error .typeError

/-- The normalized node produced by `Node.simplify`: the `id`, `message`,
`parent` and `children` entries of the returned dict (`name`/`depth` only
feed `__repr__` and are omitted). -/
structure SimpleNode where
  id : PyVal
  message : PyVal
  parent : PyVal
  children : PyVal
deriving Repr, DecidableEq

/-- The nested-message extraction `msg["content"]["parts"][0]` of
`Node.simplify` (webchatter.py line 54), applied when the raw `message`
value is a dict `m`. -/
def extractParts (m : List (String × PyVal)) : Except Err PyVal :=
  match pyIndexD m "content" with
  | .error e => .error e
  | .ok c =>
    match pyIndexS c "parts" with
    | .error e => .error e
    | .ok p => pyIndex0 p

/-- The id fallback `node["message"]["id"]` of `Node.simplify`
(webchatter.py line 61), evaluated when `node.get("id")` is falsy. -/
def idFallback (d : List (String × PyVal)) : Except Err PyVal :=
  match pyIndexD d "message" with
  | .error e => .error e
  | .ok m => pyIndexS m "id"

/-- `Node.simplify` (webchatter.py lines 49-66), operation by operation:
`msg = node.get("message")`; if `msg` is a dict, `msg = msg["content"]["parts"][0]`;
`parent = node.get("parent")`; `children = node.get("children")` with the
falsy default `[]`; `node_id = node.get("id") or node['message']['id']`.
A non-dict argument raises at the first `.get` (`AttributeError`). -/
def simplify (node : PyVal) : Except Err SimpleNode :=
  match node with
  | .dict d =>
    let msgR : Except Err PyVal :=
      match dGet d "message" with
      | .dict m => extractParts m
      | m => .ok m
    match msgR with
    | .error e => .error e
    | .ok msg =>
      let parent := dGet d "parent"
      let children0 := dGet d "children"
      let children := if truthy children0 then children0 else PyVal.list []
      let idR : Except Err PyVal :=
        if truthy (dGet d "id") then .ok (dGet d "id") else idFallback d
      match idR with
      | .error e => .error e
      | .ok nodeId =>
        .ok { id := nodeId, message := msg, parent := parent, children := children }
  | _ => .error .attributeError

/-- The map `node id → node` stored in `WebChat._mapping`: an
insertion-ordered association list with unique keys (arbitrary `PyVal`
keys, as Python dict keys are whatever `node_id` resolved to). -/
abbrev NodeMap := List (PyVal × SimpleNode)

/-- Dict lookup in the store (first matching key). -/
def mapFind : NodeMap → PyVal → Option SimpleNode
  | [], _ => Option.none
  | (k, n) :: rest, key => if k = key then some n else mapFind rest key

/-- Python dict assignment on the store: replace the entry of an existing
key in place, else append a new entry. -/
def mapInsert : NodeMap → PyVal → SimpleNode → NodeMap
  | [], key, n => [(key, n)]
  | (k, m) :: rest, key, n =>
    if k = key then (key, n) :: rest else (k, m) :: mapInsert rest key n

/-- Python `key in mapping`. -/
def hasKey (m : NodeMap) (key : PyVal) : Bool :=
  (mapFind m key).isSome

/-- Python hashability of these value shapes: `None` and strings are
hashable, lists and dicts are not (`TypeError: unhashable type` when used
as dict keys). -/
def hashable : PyVal → Bool
  | .none => true
  | .str _ => true
  | .list _ => false
  | .dict _ => false

/-- Python `mapping[key] = node` (also one entry of a dict literal): the
key is hashed first — `TypeError` when it is unhashable (a list or dict
node id from a malformed payload) — then the dict assignment of
`mapInsert` is performed. -/
def mapInsertE (m : NodeMap) (key : PyVal) (n : SimpleNode) : Except Err NodeMap :=
  if hashable key then .ok (mapInsert m key n) else .error .typeError

/-- A `WebChat` session: the attributes set by `WebChat.__init__`
(webchatter.py lines 100-109). -/
structure WebChat where
  base_url : PyVal
  access_token : PyVal
  backend_url : PyVal
  chat_id : PyVal
  node_id : PyVal
  root_id : PyVal
  tree_id : PyVal
  que_id : PyVal
  mapping : NodeMap
deriving Repr, DecidableEq

/-- The module-level configuration `webchatter.base_url`,
`webchatter.backend_url`, `webchatter.access_token` that `__init__`
falls back to. -/
structure Globals where
  base_url : PyVal
  backend_url : PyVal
  access_token : PyVal
deriving Repr, DecidableEq

/-- Python `a or b` on these values. -/
def pyOr (a b : PyVal) : PyVal :=
  if truthy a then a else b

/-- Does `sep` occur as a leading segment of `s`? -/
def matchesAt : List Char → List Char → Bool
  | [], _ => true
  | _ :: _, [] => false
  | p :: ps, c :: cs => p == c && matchesAt ps cs

/-- `s.startswith p` on the underlying character lists. -/
def strStarts (s p : String) : Bool :=
  matchesAt p.data s.data

/-- `s.endswith p` on the underlying character lists. -/
def strEnds (s p : String) : Bool :=
  matchesAt p.data.reverse s.data.reverse

/-- `os.path.join a b` for string arguments (the only shapes the source
joins: `b` is the literal `"backend-api"`). -/
def joinStr (a b : String) : String :=
  if strStarts b "/" then b
  else if a = "" then b
  else if strEnds a "/" then a ++ b
  else a ++ "/" ++ b

/-- `os.path.join a "backend-api"` as called on a `PyVal`: `TypeError`
when the first argument is not a string (in particular `None`). -/
def os_path_join (a : PyVal) (b : String) : Except Err PyVal :=
  match a with
  | .str s => .ok (.str (joinStr s b))
  | _ => .error .typeError

/-- `WebChat.__init__` (webchatter.py lines 85-109): resolve
`base_url`/`access_token`/`backend_url` through the module globals, run the
two asserts, and initialise the tree state (`_chat_id`/`_node_id` from the
arguments, the rest `None`, `_mapping = {}`). -/
def mkWebChat (g : Globals) (base_url backend_url access_token chat_id node_id : PyVal) :
    Except Err WebChat :=
  let bu := pyOr base_url g.base_url
  let tok := pyOr access_token g.access_token
  let b0 := pyOr backend_url g.backend_url
  match (if truthy b0 then .ok b0 else os_path_join bu "backend-api" : Except Err PyVal) with
  | .error e => .error e
  | .ok backend =>
    if backend = PyVal.none then .error .assertionError
    else if tok = PyVal.none then .error .assertionError
    else .ok { base_url := bu, access_token := tok, backend_url := backend,
               chat_id := chat_id, node_id := node_id,
               root_id := PyVal.none, tree_id := PyVal.none, que_id := PyVal.none,
               mapping := [] }

/-- The `access_token` property setter (webchatter.py lines 258-261):
unconditionally raises `AttributeError`, leaving the session untouched. -/
def access_token_set (w : WebChat) (_v : PyVal) : Except Err Unit × WebChat :=
  (.error .attributeError, w)

/-- The `chat_id` property setter (webchatter.py lines 268-271):
unconditionally raises `AttributeError`, leaving the session untouched. -/
def chat_id_set (w : WebChat) (_v : PyVal) : Except Err Unit × WebChat :=
  (.error .attributeError, w)

/-- The `node_id` property setter (webchatter.py lines 278-281):
unconditionally raises `AttributeError`, leaving the session untouched. -/
def node_id_set (w : WebChat) (_v : PyVal) : Except Err Unit × WebChat :=
  (.error .attributeError, w)

/-- The `base_url` property setter (webchatter.py lines 248-251): writes
`os.path.join(new_url, "backend-api")` to the plain `backend_url`
attribute and never touches `_base_url`. -/
def base_url_set (w : WebChat) (new_url : String) : WebChat :=
  { w with backend_url := PyVal.str (joinStr new_url "backend-api") }

/-- The pure prefix of the first-turn branch of `WebChat.ask`
(webchatter.py lines 152-169): everything the source computes before its
first assignment to a `self` attribute, in source order — the two response
dict mutations (line 157-158), the four `Node` constructions (lines
159-167) and the `ans_resp["conversation_id"]` lookup whose result is
assigned at line 169. `resp` is the outcome of the
`chat_completion`/`continue_chat` network call. -/
def askFirstData (message uuidTree uuidQue : String) (resp : Except Err (PyVal × PyVal)) :
    Except Err (SimpleNode × SimpleNode × SimpleNode × SimpleNode × PyVal) := do
  let (rootResp, ansResp) ← resp
  -- root_resp["children"], root_resp["parent"] = [que_id], tree_id
  let r1 ← dset rootResp "children" (PyVal.list [PyVal.str uuidQue])
  let r2 ← dset r1 "parent" (PyVal.str uuidTree)
  -- ans_resp["children"], ans_resp["parent"] = [], que_id
  let a1 ← dset ansResp "children" (PyVal.list [])
  let a2 ← dset a1 "parent" (PyVal.str uuidQue)
  -- root_node = Node(root_resp, name="root")
  let rootNode ← simplify r2
  -- tree_node = Node({"id": tree_id, "message": None, "children": [root_node.node_id], "parent": None})
  let treeNode ← simplify (PyVal.dict [("id", PyVal.str uuidTree), ("message", PyVal.none),
      ("children", PyVal.list [rootNode.id]), ("parent", PyVal.none)])
  -- ans_node = Node(ans_resp, name="A1")
  let ansNode ← simplify a2
  -- que_node = Node({"id": que_id, "message": message, "children": [ans_node.node_id], "parent": root_node.node_id}, name="Q1")
  let queNode ← simplify (PyVal.dict [("id", PyVal.str uuidQue), ("message", PyVal.str message),
      ("children", PyVal.list [ansNode.id]), ("parent", rootNode.id)])
  -- ans_resp["conversation_id"]  (the value assigned to self._chat_id)
  let conv ← pyIndexS a2 "conversation_id"
  return (treeNode, rootNode, ansNode, queNode, conv)

/-- The prefix of the continuing-turn branch of `WebChat.ask`
(webchatter.py lines 178-186) up to and including the
`self._mapping[self.node_id]` lookup and the `.children.append` list
check, all of which the source performs before its first session
mutation; `nodeId`/`mapping` are `self.node_id`/`self._mapping`. -/
def askContData (message uuidQue : String) (nodeId : PyVal) (mapping : NodeMap)
    (resp : Except Err (PyVal × PyVal)) :
    Except Err (SimpleNode × SimpleNode × SimpleNode × List PyVal) :=
  -- _, ans_resp = chat_completion(url, token, message, que_id, self.node_id, self.chat_id)
  match resp with
  | .error e => .error e
  | .ok (_, ansResp) =>
    -- ans_resp["parent"] = que_id
    match dset ansResp "parent" (PyVal.str uuidQue) with
    | .error e => .error e
    | .ok a1 =>
      -- ans_node = Node(ans_resp)
      match simplify a1 with
      | .error e => .error e
      | .ok ansNode =>
        -- que_node = Node({"id": que_id, "message": message, "children": [ans_node.node_id], "parent": self.node_id})
        match simplify (PyVal.dict [("id", PyVal.str uuidQue), ("message", PyVal.str message),
            ("children", PyVal.list [ansNode.id]), ("parent", nodeId)]) with
        | .error e => .error e
        | .ok queNode =>
          -- self._mapping[self.node_id]: the key is hashed (TypeError when
          -- the stored node_id is unhashable), then looked up (KeyError
          -- when absent); then .children.append type-checks the stored
          -- children value (AttributeError when it is not a list)
          if hashable nodeId then
            match mapFind mapping nodeId with
            | Option.none => .error .keyError
            | some prev =>
              match prev.children with
              | .list cs => .ok (ansNode, queNode, prev, cs)
              | _ => .error .attributeError
          else .error .typeError

/-- `WebChat.ask` (webchatter.py lines 147-193). The two fresh
`uuid.uuid4()` draws and the outcome of the network call are parameters;
the unused `keep` argument (line 148) is omitted. The result is the pair
(returned value or raised exception, post-state). Failures in the network
call, the response-dict mutations, the `Node` constructions and the
`conversation_id`/store lookups all occur before the first mutation of
`self` and leave the pre-state; but the store commit itself can still
raise: in the first branch the dict literal of lines 173-176 hashes each
node id in turn and a `TypeError` on an unhashable id (list/dict) fires
after line 169 set the conversation id and lines 171-172 set the four
pointers; in the second branch the insert at line 190 can likewise raise
after the `children.append` of line 186 and the pointer updates of line
188 — those partially mutated states are returned as such. -/
def ask (w : WebChat) (message uuidTree uuidQue : String)
    (resp : Except Err (PyVal × PyVal)) : Except Err PyVal × WebChat :=
  if w.chat_id = PyVal.none then
    match askFirstData message uuidTree uuidQue resp with
    | .error e => (.error e, w)
    | .ok (treeNode, rootNode, ansNode, queNode, conv) =>
      -- lines 169-172: self._chat_id, self._tree_id, self._root_id,
      -- self._node_id, self._que_id (plain assignments, cannot fail)
      let w1 := { w with
                  chat_id := conv
                  tree_id := PyVal.str uuidTree
                  root_id := rootNode.id
                  node_id := ansNode.id
                  que_id := queNode.id }
      -- lines 173-176: the four-entry dict literal, keys hashed in order
      match mapInsertE [] (PyVal.str uuidTree) treeNode with
      | .error e => (.error e, w1)
      | .ok m1 =>
        match mapInsertE m1 rootNode.id rootNode with
        | .error e => (.error e, w1)
        | .ok m2 =>
          match mapInsertE m2 ansNode.id ansNode with
          | .error e => (.error e, w1)
          | .ok m3 =>
            match mapInsertE m3 queNode.id queNode with
            | .error e => (.error e, w1)
            | .ok m4 => (.ok ansNode.message, { w1 with mapping := m4 })
  else
    match askContData message uuidQue w.node_id w.mapping resp with
    | .error e => (.error e, w)
    | .ok (ansNode, queNode, prev, cs) =>
      -- line 186: ....children.append(que_id) on the node found at
      -- self.node_id (the lookup already succeeded in askContData, so
      -- the in-place list append cannot fail)
      let m1 := mapInsert w.mapping w.node_id
        { prev with children := PyVal.list (cs ++ [PyVal.str uuidQue]) }
      -- line 188: self._node_id, self._que_id = ...
      let w1 := { w with node_id := ansNode.id, que_id := queNode.id, mapping := m1 }
      -- line 190: self._mapping[ans_node.node_id] = ans_node
      match mapInsertE m1 ansNode.id ansNode with
      | .error e => (.error e, w1)
      | .ok m2 =>
        -- line 191: self._mapping[que_node.node_id] = que_node
        match mapInsertE m2 queNode.id queNode with
        | .error e => (.error e, { w1 with mapping := m2 })
        | .ok m3 => (.ok ansNode.message, { w1 with mapping := m3 })

/-- `WebChat.goto` (webchatter.py lines 219-221): the body is a TODO stub
holding only a docstring, so the call returns `None` without raising and
without touching any session attribute, whatever the argument. -/
def goto (w : WebChat) (_node_id : PyVal) : Except Err WebChat :=
  .ok w

/-- The Python slice `l[-3:-1]`: elements from `max(0, len-3)` up to
(excluding) `max(0, len-1)`. -/
def pySliceNeg3Neg1 {α : Type u} (l : List α) : List α :=
  (l.drop (l.length - 3)).take ((l.length - 1) - (l.length - 3))

/-- Worker for `pySplit`, fuel-recursive (fuel bounds the characters still
to scan): emit the accumulated segment at each non-overlapping,
left-to-right occurrence of `sep`. -/
def pySplitGo (sep : List Char) : Nat → List Char → List Char → List (List Char)
  | _, [], acc => [acc.reverse]
  | 0, s, acc => [acc.reverse ++ s]
  | fuel + 1, c :: rest, acc =>
    if matchesAt sep (c :: rest) then
      acc.reverse :: pySplitGo sep fuel (List.drop (sep.length - 1) rest) []
    else pySplitGo sep fuel rest (c :: acc)

/-- Python `s.split(sep)` for a non-empty separator (the source only ever
splits on the literal `"data:"`): keeps empty segments, splits on
non-overlapping occurrences left to right. -/
def pySplit (sep : String) (s : String) : List String :=
  (pySplitGo sep.data s.data.length s.data []).map (fun cs => String.mk cs)

/-- The stream-splitting tail of `request.continue_chat` (request.py line
381): `msg, info = response.text.split("data:")[-3:-1]` — split on the
`data:` delimiter, slice `[-3:-1]`, and require exactly two elements to
unpack (a `ValueError`, surfaced in the taxonomy of the spec as
`RemoteCallError`, otherwise). -/
def splitPayloadFrames (text : String) : Except Err (String × String) :=
  match pySliceNeg3Neg1 (pySplit "data:" text) with
  | [m, i] => .ok (m, i)
  | _ => .error .remoteCallError

/-- `request.continue_chat` payload extraction (request.py lines 381-382)
over an abstract JSON reader `loads`: `return json.loads(msg), json.loads(info)`. -/
def continue_chat_payloads (loads : String → Except Err PyVal) (text : String) :
    Except Err (PyVal × PyVal) := do
  let (m, i) ← splitPayloadFrames text
  let msg ← loads m
  let info ← loads i
  return (msg, info)

/-- Modelled from the words of the spec (section 6, claim C3), for refinement
comparison with `splitPayloadFrames`: split on the `data:` delimiter and
take the second-to-last and the last NON-EMPTY frames as the two
payloads. -/
def specPayloadFrames (text : String) : Except Err (String × String) :=
  match ((pySplit "data:" text).filter (fun f => !(f == ""))).reverse with
  | last :: secondLast :: _ => .ok (secondLast, last)
  | _ => .error .remoteCallError

/-- The per-call inputs of one `ask` interaction: the user message, the
two fresh `uuid.uuid4()` draws, and the outcome of the network call. -/
structure AskStep where
  message : String
  treeId : String
  queId : String
  resp : Except Err (PyVal × PyVal)
deriving Repr, DecidableEq

/-- Well-formedness of a first-turn response payload: parsing succeeds and
the `conversation_id` of the answer payload (the value `ask` assigns to
`self._chat_id`) is not null. -/
def respConvOk (s : AskStep) : Bool :=
  match askFirstData s.message s.treeId s.queId s.resp with
  | .ok (_, _, _, _, conv) => decide (conv ≠ PyVal.none)
  | .error _ => false

/-- Pairwise distinctness of four values. -/
def distinct4 (a b c d : PyVal) : Bool :=
  decide (a ≠ b) && decide (a ≠ c) && decide (a ≠ d) &&
  decide (b ≠ c) && decide (b ≠ d) && decide (c ≠ d)

/-- Freshness side conditions of one successful `ask` step (uuid4 draws
and server-assigned ids do not collide with each other or with existing
store keys, and a first-turn payload carries a usable conversation id) —
the conditions the source relies on uuid4/the backend for. -/
def stepOk (w : WebChat) (s : AskStep) (w' : WebChat) : Bool :=
  if w.chat_id = PyVal.none then
    respConvOk s && distinct4 w'.tree_id w'.root_id w'.node_id w'.que_id
  else
    decide (w'.node_id ≠ w'.que_id) &&
      !(hasKey w.mapping w'.node_id) && !(hasKey w.mapping w'.que_id)

/-- Run a list of `ask` interactions from a given session state, requiring
every call to succeed and to satisfy the freshness side conditions. -/
def asksFresh : WebChat → List AskStep → Option WebChat
  | w, [] => some w
  | w, s :: rest =>
    match ask w s.message s.treeId s.queId s.resp with
    | (.ok _, w') => if stepOk w s w' then asksFresh w' rest else Option.none
    | (.error _, _) => Option.none


/- Concrete example data used by the witness theorems. -/

/-- Example module configuration. -/
def exGlobals : Globals := ⟨PyVal.str "https://chat.openai.com", PyVal.none, PyVal.none⟩

/-- A freshly constructed session (the attribute values `__init__` produces
for a base url and token with no conversation to resume). -/
def exSession : WebChat :=
  { base_url := .str "https://chat.openai.com", access_token := .str "tok",
    backend_url := .str "https://chat.openai.com/backend-api",
    chat_id := .none, node_id := .none, root_id := .none, tree_id := .none,
    que_id := .none, mapping := [] }

/-- Example first-turn root acknowledgment payload. -/
def exRootResp : PyVal := .dict [("id", .str "rid1")]

/-- Example first-turn answer payload (nested message, conversation id). -/
def exAnsResp1 : PyVal := .dict
  [("message", .dict [("id", .str "aid1"),
      ("content", .dict [("parts", .list [.str "answer one"])])]),
   ("conversation_id", .str "conv1")]

/-- Example continuation-turn answer payload. -/
def exAnsResp2 : PyVal := .dict
  [("message", .dict [("id", .str "aid2"),
      ("content", .dict [("parts", .list [.str "answer two"])])]),
   ("conversation_id", .str "conv1")]

/-- Example first `ask` interaction. -/
def exStep1 : AskStep := ⟨"hello", "tid1", "qid1", .ok (exRootResp, exAnsResp1)⟩

/-- Example second `ask` interaction. -/
def exStep2 : AskStep := ⟨"again", "tid2", "qid2", .ok (.dict [], exAnsResp2)⟩

/-- The session after running the two example interactions. -/
def exRun : WebChat :=
  match asksFresh exSession [exStep1, exStep2] with
  | some w => w
  | Option.none => exSession

/-- The session right after the first example `ask`. -/
def exAsk1 : WebChat := (ask exSession "hello" "tid1" "qid1" (.ok (exRootResp, exAnsResp1))).2

/-- A trivial JSON reader for witnesses over the payload extraction. -/
def exLoads : String → Except Err PyVal := fun s => .ok (.str s)

/-- A malformed first-turn root payload whose node id is a JSON array —
truthy, so `simplify` accepts it as the node id, but unhashable, so the
dict literal of webchatter.py lines 173-176 raises `TypeError` after the
conversation id and pointers were already set. -/
def exRootRespBad : PyVal := .dict [("id", .list [.str "x"])]

/-- A raw node whose explicit id key is present but falsy (empty string)
while the nested message carries an id. -/
def exRawFalsyId : PyVal := .dict [("id", .str ""),
  ("message", .dict [("id", .str "node-77"),
    ("content", .dict [("parts", .list [.str "hi"])])])]

/-- The session produced by `mkWebChat` on the example configuration. -/
def exMkSession : WebChat :=
  match mkWebChat exGlobals (.str "https://chat.openai.com") PyVal.none (.str "tok")
      PyVal.none PyVal.none with
  | .ok w => w
  | .error _ => exSession

/- Store lemmas -/

theorem mapFind_mapInsert_self (m : NodeMap) (k : PyVal) (n : SimpleNode) :
    mapFind (mapInsert m k n) k = some n := by
  induction m with
  | nil => simp [mapInsert, mapFind]
  | cons e rest ih =>
    obtain ⟨k', n'⟩ := e
    by_cases h : k' = k <;> simp [mapInsert, mapFind, h, ih]

theorem mapFind_mapInsert_ne (m : NodeMap) (k k' : PyVal) (n : SimpleNode)
    (h : k' ≠ k) : mapFind (mapInsert m k n) k' = mapFind m k' := by
  induction m with
  | nil => simp [mapInsert, mapFind, h, Ne.symm h]
  | cons e rest ih =>
    obtain ⟨k0, n0⟩ := e
    by_cases h0 : k0 = k
    · subst h0; simp [mapInsert, mapFind, h, Ne.symm h]
    · by_cases h1 : k0 = k' <;> simp [mapInsert, mapFind, h, h0, h1, ih]

theorem hasKey_mapInsert (m : NodeMap) (k k' : PyVal) (n : SimpleNode) :
    hasKey (mapInsert m k n) k' = (decide (k' = k) || hasKey m k') := by
  by_cases h : k' = k
  · subst h; simp [hasKey, mapFind_mapInsert_self]
  · simp [hasKey, mapFind_mapInsert_ne m k k' n h, h]

theorem length_mapInsert_of_hasKey (m : NodeMap) (k : PyVal) (n : SimpleNode)
    (h : hasKey m k = true) : (mapInsert m k n).length = m.length := by
  induction m with
  | nil => simp [hasKey, mapFind] at h
  | cons e rest ih =>
    obtain ⟨k0, n0⟩ := e
    by_cases h0 : k0 = k
    · simp [mapInsert, h0]
    · simp only [hasKey, mapFind, h0, if_false] at h
      have h' : hasKey rest k = true := h
      simp [mapInsert, h0, ih h']

theorem length_mapInsert_of_not_hasKey (m : NodeMap) (k : PyVal) (n : SimpleNode)
    (h : hasKey m k = false) : (mapInsert m k n).length = m.length + 1 := by
  induction m with
  | nil => simp [mapInsert]
  | cons e rest ih =>
    obtain ⟨k0, n0⟩ := e
    by_cases h0 : k0 = k
    · simp [hasKey, mapFind, h0] at h
    · simp only [hasKey, mapFind, h0, if_false] at h
      have h' : hasKey rest k = false := by simp [hasKey, h]
      simp [mapInsert, h0, ih h']

theorem hasKey_of_mapFind_eq_some (m : NodeMap) (k : PyVal) (n : SimpleNode)
    (h : mapFind m k = some n) : hasKey m k = true := by
  simp [hasKey, h]

theorem hasKey_nil (k : PyVal) : hasKey [] k = false := rfl

theorem dGet_assocSet_self (d : List (String × PyVal)) (k : String) (x : PyVal) :
    dGet (assocSet d k x) k = x := by
  induction d with
  | nil => simp [assocSet, dGet, dFind]
  | cons e rest ih =>
    obtain ⟨k0, v0⟩ := e
    by_cases h0 : k0 = k
    · simp [assocSet, dGet, dFind, h0]
    · simp only [assocSet, h0, if_false, dGet, dFind]
      exact ih

/- Inversion lemmas for Node.simplify -/

theorem simplify_ok_parent_children (d : List (String × PyVal)) (s : SimpleNode)
    (h : simplify (.dict d) = .ok s) :
    s.parent = dGet d "parent" ∧
    s.children = (if truthy (dGet d "children") then dGet d "children" else PyVal.list []) := by
  simp only [simplify] at h
  split at h
  · exact absurd h (by simp)
  · split at h
    · exact absurd h (by simp)
    · cases h; exact ⟨rfl, rfl⟩

theorem simplify_ok_id_truthy (d : List (String × PyVal)) (s : SimpleNode)
    (h : simplify (.dict d) = .ok s) (hid : truthy (dGet d "id") = true) :
    s.id = dGet d "id" := by
  simp only [simplify, hid, if_true] at h
  split at h
  · exact absurd h (by simp)
  · cases h; rfl

theorem simplify_ok_message_nested (d m : List (String × PyVal)) (s : SimpleNode)
    (h : simplify (.dict d) = .ok s) (hm : dGet d "message" = PyVal.dict m) :
    extractParts m = .ok s.message := by
  simp only [simplify, hm] at h
  split at h
  · exact absurd h (by simp)
  · split at h
    · exact absurd h (by simp)
    · cases h; assumption

theorem simplify_ok_message_plain (d : List (String × PyVal)) (s : SimpleNode)
    (h : simplify (.dict d) = .ok s) (hm : ∀ m, dGet d "message" ≠ PyVal.dict m) :
    s.message = dGet d "message" := by
  cases hv : dGet d "message" with
  | dict m => exact absurd hv (hm m)
  | none =>
    simp only [simplify, hv] at h
    split at h
    · exact absurd h (by simp)
    · cases h; rfl
  | str a =>
    simp only [simplify, hv] at h
    split at h
    · exact absurd h (by simp)
    · cases h; rfl
  | list xs =>
    simp only [simplify, hv] at h
    split at h
    · exact absurd h (by simp)
    · cases h; rfl

theorem simplify_ok_id_fallback (d : List (String × PyVal)) (s : SimpleNode)
    (h : simplify (.dict d) = .ok s) (hid : truthy (dGet d "id") = false) :
    idFallback d = .ok s.id := by
  simp only [simplify, hid, if_false] at h
  split at h
  · exact absurd h (by simp)
  · split at h
    · exact absurd h (by simp)
    · cases h; assumption

theorem simplify_error_of_idFallback_error (d : List (String × PyVal))
    (hid : truthy (dGet d "id") = false) (e : Err) (hfb : idFallback d = .error e) :
    ∃ e', simplify (.dict d) = .error e' := by
  simp only [simplify, hid, if_false]
  split
  · exact ⟨_, rfl⟩
  · rw [hfb]; exact ⟨_, rfl⟩

/- Inversion lemmas for the two ask branches -/

theorem bindOkInv {α β : Type} {x : Except Err α} {f : α → Except Err β} {b : β}
    (h : (x >>= f) = .ok b) : ∃ a, x = .ok a ∧ f a = .ok b := by
  cases x with
  | error e => simp [Bind.bind, Except.bind] at h
  | ok a => exact ⟨a, rfl, by simpa [Bind.bind, Except.bind] using h⟩

theorem dset_ok_inv {v : PyVal} {k : String} {x v' : PyVal}
    (h : dset v k x = .ok v') : ∃ d, v = .dict d ∧ v' = .dict (assocSet d k x) := by
  cases v with
  | dict d =>
    refine ⟨d, rfl, ?_⟩
    simpa [dset] using h.symm
  | none => simp [dset] at h
  | str s => simp [dset] at h
  | list xs => simp [dset] at h

theorem simplify_queLit (q msgText : String) (aid X : PyVal) :
    simplify (PyVal.dict [("id", PyVal.str q), ("message", PyVal.str msgText),
      ("children", PyVal.list [aid]), ("parent", X)]) =
    if q = "" then .error .typeError
    else .ok ⟨.str q, .str msgText, X, .list [aid]⟩ := by
  by_cases hq : q = "" <;>
    simp [simplify, dGet, dFind, truthy, hq, idFallback, pyIndexD, pyIndexS]

theorem simplify_treeLit (t : String) (rid : PyVal) :
    simplify (PyVal.dict [("id", PyVal.str t), ("message", PyVal.none),
      ("children", PyVal.list [rid]), ("parent", PyVal.none)]) =
    if t = "" then .error .typeError
    else .ok ⟨.str t, .none, .none, .list [rid]⟩ := by
  by_cases ht : t = "" <;>
    simp [simplify, dGet, dFind, truthy, ht, idFallback, pyIndexD, pyIndexS]

theorem askFirstData_ok_inv {m t q : String} {resp : Except Err (PyVal × PyVal)}
    {tn rn an qn : SimpleNode} {conv : PyVal}
    (h : askFirstData m t q resp = .ok (tn, rn, an, qn, conv)) :
    an.parent = .str q ∧
    qn = ⟨.str q, .str m, rn.id, .list [an.id]⟩ ∧
    tn = ⟨.str t, .none, .none, .list [rn.id]⟩ := by
  simp only [askFirstData] at h
  obtain ⟨⟨rootResp, ansResp⟩, hresp, h⟩ := bindOkInv h
  obtain ⟨r1, hr1, h⟩ := bindOkInv h
  obtain ⟨r2, hr2, h⟩ := bindOkInv h
  obtain ⟨a1, ha1, h⟩ := bindOkInv h
  obtain ⟨a2, ha2, h⟩ := bindOkInv h
  obtain ⟨rootNode, hroot, h⟩ := bindOkInv h
  obtain ⟨treeNode, htree, h⟩ := bindOkInv h
  obtain ⟨ansNode, hans, h⟩ := bindOkInv h
  obtain ⟨queNode, hque, h⟩ := bindOkInv h
  obtain ⟨conv', hconv, h⟩ := bindOkInv h
  simp only [pure, Except.pure, Except.ok.injEq, Prod.mk.injEq] at h
  obtain ⟨h1, h2, h3, h4, h5⟩ := h
  subst h1; subst h2; subst h3; subst h4; subst h5
  obtain ⟨dd, ha1d, ha2d⟩ := dset_ok_inv ha2
  subst ha2d
  have hparent := (simplify_ok_parent_children _ _ hans).1
  rw [dGet_assocSet_self] at hparent
  rw [simplify_treeLit] at htree
  rw [simplify_queLit] at hque
  refine ⟨hparent, ?_, ?_⟩
  · by_cases hqe : q = ""
    · rw [if_pos hqe] at hque; cases hque
    · rw [if_neg hqe] at hque; cases hque; rfl
  · by_cases hte : t = ""
    · rw [if_pos hte] at htree; cases htree
    · rw [if_neg hte] at htree; cases htree; rfl

theorem askContData_ok_inv {m q : String} {nodeId : PyVal} {mapping : NodeMap}
    {resp : Except Err (PyVal × PyVal)} {an qn prev : SimpleNode} {cs : List PyVal}
    (h : askContData m q nodeId mapping resp = .ok (an, qn, prev, cs)) :
    mapFind mapping nodeId = some prev ∧ prev.children = .list cs ∧
    an.parent = .str q ∧
    qn = ⟨.str q, .str m, nodeId, .list [an.id]⟩ := by
  simp only [askContData] at h
  split at h
  · exact absurd h (by simp)
  · split at h
    · exact absurd h (by simp)
    · split at h
      · exact absurd h (by simp)
      · split at h
        · exact absurd h (by simp)
        · split at h
          · split at h
            · exact absurd h (by simp)
            · split at h
              · rename_i fst ansResp xa aP hdset xb ansNode hans xc queNode hque hhash xd prevN hfind xe csN hcs
                simp only [Except.ok.injEq, Prod.mk.injEq] at h
                obtain ⟨h1, h2, h3, h4⟩ := h
                subst h1; subst h2; subst h3; subst h4
                obtain ⟨dd, hdd, haP⟩ := dset_ok_inv hdset
                subst haP
                have hparent := (simplify_ok_parent_children _ _ hans).1
                rw [dGet_assocSet_self] at hparent
                rw [simplify_queLit] at hque
                refine ⟨hfind, hcs, hparent, ?_⟩
                by_cases hqe : q = ""
                · rw [if_pos hqe] at hque; cases hque
                · rw [if_neg hqe] at hque; cases hque; rfl
              · exact absurd h (by simp)
          · exact absurd h (by simp)

theorem mapInsertE_ok_inv {m : NodeMap} {k : PyVal} {n : SimpleNode} {mres : NodeMap}
    (h : mapInsertE m k n = .ok mres) : mres = mapInsert m k n ∧ hashable k = true := by
  by_cases hk : hashable k = true
  · rw [mapInsertE, if_pos hk] at h
    injection h with h
    exact ⟨h.symm, hk⟩
  · rw [mapInsertE, if_neg hk] at h
    exact absurd h (by simp)

theorem ask_ok_first {w : WebChat} {m t q : String} {resp : Except Err (PyVal × PyVal)}
    {r : PyVal} {w' : WebChat} (hchat : w.chat_id = PyVal.none)
    (h : ask w m t q resp = (.ok r, w')) :
    ∃ tn rn an qn conv, askFirstData m t q resp = .ok (tn, rn, an, qn, conv) ∧
      r = an.message ∧
      w' = { w with
             chat_id := conv
             tree_id := .str t
             root_id := rn.id
             node_id := an.id
             que_id := qn.id
             mapping := mapInsert (mapInsert (mapInsert (mapInsert []
               (.str t) tn) rn.id rn) an.id an) qn.id qn } := by
  rw [ask, if_pos hchat] at h
  split at h
  · simp at h
  · rename_i tn rn an qn conv heq
    split at h
    · simp at h
    · rename_i m1 hm1
      split at h
      · simp at h
      · rename_i m2 hm2
        split at h
        · simp at h
        · rename_i m3 hm3
          split at h
          · simp at h
          · rename_i m4 hm4
            obtain ⟨hm1e, hk1⟩ := mapInsertE_ok_inv hm1
            obtain ⟨hm2e, hk2⟩ := mapInsertE_ok_inv hm2
            obtain ⟨hm3e, hk3⟩ := mapInsertE_ok_inv hm3
            obtain ⟨hm4e, hk4⟩ := mapInsertE_ok_inv hm4
            subst hm1e; subst hm2e; subst hm3e; subst hm4e
            injection h with h1 h2
            injection h1 with h1
            exact ⟨tn, rn, an, qn, conv, heq, h1.symm, h2.symm⟩

theorem ask_ok_cont {w : WebChat} {m t q : String} {resp : Except Err (PyVal × PyVal)}
    {r : PyVal} {w' : WebChat} (hchat : ¬w.chat_id = PyVal.none)
    (h : ask w m t q resp = (.ok r, w')) :
    ∃ an qn prev cs, askContData m q w.node_id w.mapping resp = .ok (an, qn, prev, cs) ∧
      r = an.message ∧
      w' = { w with
             node_id := an.id
             que_id := qn.id
             mapping := mapInsert (mapInsert (mapInsert w.mapping
               w.node_id { prev with children := PyVal.list (cs ++ [PyVal.str q]) })
               an.id an) qn.id qn } := by
  rw [ask, if_neg hchat] at h
  split at h
  · simp at h
  · rename_i an qn prev cs heq
    dsimp only [] at h
    split at h
    · simp at h
    · rename_i m2 hm2
      split at h
      · simp at h
      · rename_i m3 hm3
        obtain ⟨hm2e, hk2⟩ := mapInsertE_ok_inv hm2
        obtain ⟨hm3e, hk3⟩ := mapInsertE_ok_inv hm3
        subst hm2e; subst hm3e
        injection h with h1 h2
        injection h1 with h1
        exact ⟨an, qn, prev, cs, heq, h1.symm, h2.symm⟩

theorem ask_first_store {w : WebChat} {m t q : String} {resp : Except Err (PyVal × PyVal)}
    {r : PyVal} {w' : WebChat} (hchat : w.chat_id = PyVal.none)
    (h : ask w m t q resp = (.ok r, w'))
    (hd : distinct4 w'.tree_id w'.root_id w'.node_id w'.que_id = true)
    (hcv : respConvOk ⟨m, t, q, resp⟩ = true) :
    w'.mapping.length = 4 ∧ w'.chat_id ≠ PyVal.none := by
  obtain ⟨tn, rn, an, qn, conv, heq, hr, hw⟩ := ask_ok_first hchat h
  subst hw
  simp only [distinct4, Bool.and_eq_true, decide_eq_true_eq] at hd
  obtain ⟨⟨⟨⟨⟨d12, d13⟩, d14⟩, d23⟩, d24⟩, d34⟩ := hd
  constructor
  · show (mapInsert (mapInsert (mapInsert (mapInsert []
      (PyVal.str t) tn) rn.id rn) an.id an) qn.id qn).length = 4
    have k1 : hasKey ([] : NodeMap) (PyVal.str t) = false := rfl
    have l1 := length_mapInsert_of_not_hasKey [] (PyVal.str t) tn k1
    have k2 : hasKey (mapInsert [] (PyVal.str t) tn) rn.id = false := by
      simp [hasKey_mapInsert, hasKey_nil, Ne.symm d12]
    have l2 := length_mapInsert_of_not_hasKey _ rn.id rn k2
    have k3 : hasKey (mapInsert (mapInsert [] (PyVal.str t) tn) rn.id rn) an.id = false := by
      simp [hasKey_mapInsert, hasKey_nil, Ne.symm d13, Ne.symm d23]
    have l3 := length_mapInsert_of_not_hasKey _ an.id an k3
    have k4 : hasKey (mapInsert (mapInsert (mapInsert [] (PyVal.str t) tn) rn.id rn)
        an.id an) qn.id = false := by
      simp [hasKey_mapInsert, hasKey_nil, Ne.symm d14, Ne.symm d24, Ne.symm d34]
    have l4 := length_mapInsert_of_not_hasKey _ qn.id qn k4
    simp only [l4, l3, l2, l1, List.length_nil]
  · show conv ≠ PyVal.none
    simp only [respConvOk, heq, decide_eq_true_eq] at hcv
    exact hcv

theorem ask_cont_store {w : WebChat} {m t q : String} {resp : Except Err (PyVal × PyVal)}
    {r : PyVal} {w' : WebChat} (hchat : ¬w.chat_id = PyVal.none)
    (h : ask w m t q resp = (.ok r, w'))
    (hne : w'.node_id ≠ w'.que_id)
    (hn : hasKey w.mapping w'.node_id = false)
    (hq : hasKey w.mapping w'.que_id = false) :
    w'.mapping.length = w.mapping.length + 2 ∧ w'.chat_id = w.chat_id := by
  obtain ⟨an, qn, prev, cs, heq, hr, hw⟩ := ask_ok_cont hchat h
  obtain ⟨hfind, hcs, hparent, hqn⟩ := askContData_ok_inv heq
  subst hw
  refine ⟨?_, rfl⟩
  show (mapInsert (mapInsert (mapInsert w.mapping
    w.node_id { prev with children := PyVal.list (cs ++ [PyVal.str q]) })
    an.id an) qn.id qn).length = w.mapping.length + 2
  have hk0 : hasKey w.mapping w.node_id = true := hasKey_of_mapFind_eq_some _ _ _ hfind
  have hann : an.id ≠ w.node_id := by
    intro hcontra
    rw [hcontra] at hn
    rw [hn] at hk0
    exact Bool.false_ne_true hk0
  have hqnn : qn.id ≠ w.node_id := by
    intro hcontra
    rw [hcontra] at hq
    rw [hq] at hk0
    exact Bool.false_ne_true hk0
  have l1 := length_mapInsert_of_hasKey w.mapping w.node_id
    { prev with children := PyVal.list (cs ++ [PyVal.str q]) } hk0
  have k2 : hasKey (mapInsert w.mapping w.node_id
      { prev with children := PyVal.list (cs ++ [PyVal.str q]) }) an.id = false := by
    simp [hasKey_mapInsert, hann, hn]
  have l2 := length_mapInsert_of_not_hasKey _ an.id an k2
  have k3 : hasKey (mapInsert (mapInsert w.mapping w.node_id
      { prev with children := PyVal.list (cs ++ [PyVal.str q]) }) an.id an) qn.id = false := by
    simp [hasKey_mapInsert, hqnn, hq, Ne.symm hne]
  have l3 := length_mapInsert_of_not_hasKey _ qn.id qn k3
  omega




theorem pySlice_take2 {α : Type u} (l : List α) (h : 3 ≤ l.length) :
    pySliceNeg3Neg1 l = (l.drop (l.length - 3)).take 2 := by
  rw [pySliceNeg3Neg1]
  congr 1
  omega

theorem drop_sub3_take2 {α : Type u} (d : α) :
    ∀ l : List α, 3 ≤ l.length →
      (l.drop (l.length - 3)).take 2 = [l.getD (l.length - 3) d, l.getD (l.length - 2) d]
  | [], h => by simp at h
  | a :: tl, h => by
    rcases Nat.lt_or_ge tl.length 3 with hlt | hge
    · have h2 : tl.length = 2 := by
        simp only [List.length_cons] at h
        omega
      match tl, h2 with
      | [b, c], _ => simp [List.getD]
    · have e1 : (a :: tl).length - 3 = (tl.length - 3) + 1 := by
        simp only [List.length_cons]; omega
      have e2 : (a :: tl).length - 2 = (tl.length - 2) + 1 := by
        simp only [List.length_cons]; omega
      rw [e1, e2, List.drop_succ_cons, List.getD_cons_succ, List.getD_cons_succ]
      exact drop_sub3_take2 d tl hge

theorem pySlice_short {α : Type u} (l : List α) (h : l.length < 3) :
    (pySliceNeg3Neg1 l).length ≤ 1 := by
  match l, h with
  | [], _ => simp [pySliceNeg3Neg1]
  | [a], _ => simp [pySliceNeg3Neg1]
  | [a, b], _ => simp [pySliceNeg3Neg1]



theorem asksFresh_cont_growth : ∀ (steps : List AskStep) (w w' : WebChat),
    w.chat_id ≠ PyVal.none → asksFresh w steps = some w' →
    w'.mapping.length = w.mapping.length + 2 * steps.length ∧ w'.chat_id = w.chat_id := by
  intro steps
  induction steps with
  | nil =>
    intro w w' hc h
    simp only [asksFresh, Option.some.injEq] at h
    subst h
    simp
  | cons s rest ih =>
    intro w w' hc h
    simp only [asksFresh] at h
    split at h
    · rename_i r w1 heq
      split at h
      · rename_i hstep
        rw [stepOk, if_neg hc] at hstep
        simp only [Bool.and_eq_true, Bool.not_eq_true', decide_eq_true_eq] at hstep
        obtain ⟨⟨hne, hn⟩, hq⟩ := hstep
        obtain ⟨len1, chat1⟩ := ask_cont_store hc heq hne hn hq
        have hc1 : w1.chat_id ≠ PyVal.none := by
          rw [chat1]
          exact hc
        obtain ⟨lenr, chatr⟩ := ih w1 w' hc1 h
        constructor
        · rw [lenr, len1]
          simp [List.length_cons]
          omega
        · rw [chatr, chat1]
      · exact absurd h (by simp)
    · exact absurd h (by simp)

/- The claims. -/

/-- C1. For every session started empty (no conversation id, empty store),
a run of n ≥ 1 successful `ask` calls — with the freshness side conditions
the source delegates to uuid4 and the backend (`stepOk`: no id collisions,
and the first-turn answer payload carries a non-null `conversation_id`) —
leaves the store with exactly 2 n + 2 nodes and `conversationId` non-None:
the first call builds the four-node mapping (tree anchor, root, question,
answer) and sets the conversation id from the answer payload, and every
later call inserts exactly a question node and an answer node. -/
theorem webchat_ask_store_size (w : WebChat) (steps : List AskStep) (w' : WebChat)
    (hchat : w.chat_id = PyVal.none) (_hmap : w.mapping = [])
    (hne : steps ≠ []) (hrun : asksFresh w steps = some w') :
    w'.mapping.length = 2 * steps.length + 2 ∧ w'.chat_id ≠ PyVal.none := by
  cases steps with
  | nil => exact absurd rfl hne
  | cons s rest =>
    simp only [asksFresh] at hrun
    split at hrun
    · rename_i r w1 heq
      split at hrun
      · rename_i hstep
        rw [stepOk, if_pos hchat] at hstep
        simp only [Bool.and_eq_true] at hstep
        obtain ⟨hcv, hd⟩ := hstep
        have hstep4 : respConvOk ⟨s.message, s.treeId, s.queId, s.resp⟩ = true := hcv
        obtain ⟨len1, chat1⟩ := ask_first_store hchat heq hd hstep4
        obtain ⟨lenr, chatr⟩ := asksFresh_cont_growth rest w1 w' chat1 hrun
        constructor
        · rw [lenr, len1]
          simp [List.length_cons]
          omega
        · rw [chatr]
          exact chat1
      · exact absurd hrun (by simp)
    · exact absurd hrun (by simp)

/-- Witness for C1: the two example interactions leave the example session
with 2 * 2 + 2 = 6 stored nodes and a non-None conversation id. -/
theorem webchat_ask_store_size_witness :
    exRun.mapping.length = 2 * ([exStep1, exStep2] : List AskStep).length + 2 ∧
    exRun.chat_id ≠ PyVal.none :=
  webchat_ask_store_size exSession [exStep1, exStep2] exRun rfl rfl
    (by decide) (by decide)

/-- C2 (code bug evidence). `WebChat.ask` is NOT all-or-nothing: on a
fresh session, a first-turn root payload whose node id is a JSON array
passes every parsing step (the id is truthy, so `Node.simplify` accepts
it), line 169 then sets `self._chat_id` and lines 171-172 the four
pointers, and only afterwards does the dict literal of lines 173-176
raise `TypeError` hashing the unhashable id — the call fails with the
conversation id and pointers already mutated while the store kept its
old (empty) value, contradicting the claimed state restoration. -/
theorem webchat_ask_partial_mutation :
    (ask exSession "hello" "tid1" "qid1" (.ok (exRootRespBad, exAnsResp1))).1
      = .error .typeError ∧
    (ask exSession "hello" "tid1" "qid1" (.ok (exRootRespBad, exAnsResp1))).2.chat_id
      = PyVal.str "conv1" ∧
    (ask exSession "hello" "tid1" "qid1" (.ok (exRootRespBad, exAnsResp1))).2.mapping
      = exSession.mapping ∧
    (ask exSession "hello" "tid1" "qid1" (.ok (exRootRespBad, exAnsResp1))).2
      ≠ exSession := by
  refine ⟨by decide, by decide, by decide, by decide⟩

/-- C3 counterexample. On the two-frame stream "data:Adata:B" the code's
`split("data:")[-3:-1]` selection yields `("", "A")`, while the
selection of the claim, "second-to-last and last non-empty frames" (modelled by
`specPayloadFrames`) yields `("A", "B")`: the claim as stated does not
describe the code. -/
theorem continue_chat_frames_cex :
    splitPayloadFrames "data:Adata:B" = .ok ("", "A") ∧
    specPayloadFrames "data:Adata:B" = .ok ("A", "B") ∧
    (("", "A") : String × String) ≠ ("A", "B") := by
  refine ⟨by decide, by decide, by decide⟩

/-- C3 (amended). The completion call splits the response text on the
`data:` delimiter and takes, as the two frames to parse as JSON, the
third-to-last and second-to-last segments of the split (Python slice
`[-3:-1]`, empty segments included); a stream splitting into fewer than
three segments fails with `RemoteCallError`, and the two selected frames
are then fed to the JSON reader, whose failures propagate. -/
theorem continue_chat_frame_selection (loads : String → Except Err PyVal) (text : String) :
    (3 ≤ (pySplit "data:" text).length →
      splitPayloadFrames text = .ok
        ((pySplit "data:" text).getD ((pySplit "data:" text).length - 3) "",
         (pySplit "data:" text).getD ((pySplit "data:" text).length - 2) "")) ∧
    ((pySplit "data:" text).length < 3 →
      splitPayloadFrames text = .error .remoteCallError) ∧
    (∀ m i, splitPayloadFrames text = .ok (m, i) →
      continue_chat_payloads loads text =
        (loads m).bind (fun a => (loads i).bind (fun b => .ok (a, b)))) := by
  refine ⟨?_, ?_, ?_⟩
  · intro hge
    rw [splitPayloadFrames, pySlice_take2 _ hge, drop_sub3_take2 "" _ hge]
  · intro hlt
    rw [splitPayloadFrames]
    have hlen := pySlice_short (pySplit "data:" text) hlt
    match hsl : pySliceNeg3Neg1 (pySplit "data:" text), hlen with
    | [], _ => rfl
    | [x], _ => rfl
  · intro m i hok
    cases hm : loads m with
    | error e =>
      simp [continue_chat_payloads, hok, hm, Bind.bind, Except.bind]
    | ok a =>
      cases hi : loads i with
      | error e =>
        simp [continue_chat_payloads, hok, hm, hi, Bind.bind, Except.bind]
      | ok b =>
        simp [continue_chat_payloads, hok, hm, hi, Bind.bind, Except.bind, pure, Except.pure]

/-- Witness for the amended C3: on a three-frame stream the selected
frames are the third-to-last and second-to-last segments, and the JSON
reader is applied to exactly those. -/
theorem continue_chat_frame_selection_witness :
    splitPayloadFrames "data:Xdata:Ydata:Z" = .ok
      ((pySplit "data:" "data:Xdata:Ydata:Z").getD
        ((pySplit "data:" "data:Xdata:Ydata:Z").length - 3) "",
       (pySplit "data:" "data:Xdata:Ydata:Z").getD
        ((pySplit "data:" "data:Xdata:Ydata:Z").length - 2) "") ∧
    continue_chat_payloads exLoads "data:Xdata:Ydata:Z" =
      (exLoads "X").bind (fun a => (exLoads "Y").bind (fun b => .ok (a, b))) :=
  ⟨(continue_chat_frame_selection exLoads "data:Xdata:Ydata:Z").1 (by decide),
   (continue_chat_frame_selection exLoads "data:Xdata:Ydata:Z").2.2 "X" "Y" (by decide)⟩

/-- C4 counterexample. A raw node whose `id` key is present but bound to
the empty string — with a nested message carrying id "node-77" — is
normalized with id "node-77", not the present explicit field: resolution
is not decided by presence of the `id` key, refuting the claim as
stated. -/
theorem simplify_id_presence_cex :
    dFind [("id", PyVal.str ""),
      ("message", PyVal.dict [("id", PyVal.str "node-77"),
        ("content", PyVal.dict [("parts", PyVal.list [PyVal.str "hi"])])])] "id"
      = some (PyVal.str "") ∧
    (simplify exRawFalsyId).map SimpleNode.id = .ok (PyVal.str "node-77") ∧
    PyVal.str "node-77" ≠ PyVal.str "" := by
  refine ⟨by decide, by decide, by decide⟩

/-- C4 (amended). Node normalization resolves the node id as the explicit
`id` field when that field is truthy, else as `message.id` through the
mandatory lookups `node["message"]["id"]`; when the explicit id is absent
or falsy and that fallback lookup fails, normalization fails. -/
theorem simplify_id_resolution (raw : PyVal) :
    (∀ d s, raw = PyVal.dict d → simplify raw = .ok s →
       (truthy (dGet d "id") = true → s.id = dGet d "id") ∧
       (truthy (dGet d "id") = false → idFallback d = .ok s.id)) ∧
    (∀ d e, raw = PyVal.dict d → truthy (dGet d "id") = false →
       idFallback d = .error e → ∀ s, simplify raw ≠ .ok s) := by
  constructor
  · intro d s hd hok
    subst hd
    exact ⟨fun hid => simplify_ok_id_truthy d s hok hid,
           fun hid => simplify_ok_id_fallback d s hok hid⟩
  · intro d e hd hid hfb s hok
    subst hd
    obtain ⟨e', he'⟩ := simplify_error_of_idFallback_error d hid e hfb
    rw [he'] at hok
    exact absurd hok (by simp)

/-- Witness for the amended C4: a node with the truthy explicit id "abc"
normalizes to that id. -/
theorem simplify_id_resolution_witness :
    (⟨PyVal.str "abc", PyVal.none, PyVal.none, PyVal.list []⟩ : SimpleNode).id =
      dGet [("id", PyVal.str "abc")] "id" :=
  ((simplify_id_resolution (.dict [("id", .str "abc")])).1
    [("id", PyVal.str "abc")] ⟨PyVal.str "abc", PyVal.none, PyVal.none, PyVal.list []⟩
    rfl (by decide)).1 (by decide)

/-- C5. Whenever normalization succeeds, the raw node is a dict and: when
its `message` value is a nested dict, the produced `message` is exactly
`message.content.parts[0]` (the `extractParts` chain); otherwise `message`
passes through unchanged (None included); and `children` is the raw
`children` value when truthy, else the empty list. -/
theorem simplify_message_children_spec (raw : PyVal) (s : SimpleNode)
    (h : simplify raw = .ok s) :
    ∃ d, raw = PyVal.dict d ∧
      (∀ m, dGet d "message" = PyVal.dict m → extractParts m = .ok s.message) ∧
      ((∀ m, dGet d "message" ≠ PyVal.dict m) → s.message = dGet d "message") ∧
      s.children = (if truthy (dGet d "children") then dGet d "children" else PyVal.list []) := by
  cases raw with
  | dict d =>
    exact ⟨d, rfl, fun m hm => simplify_ok_message_nested d m s h hm,
      fun hm => simplify_ok_message_plain d s h hm,
      (simplify_ok_parent_children d s h).2⟩
  | none => simp [simplify] at h
  | str a => simp [simplify] at h
  | list xs => simp [simplify] at h

/-- Witness for C5 at the example answer payload: the message is the first
content part and the absent children default to the empty list. -/
theorem simplify_message_children_spec_witness :
    ∃ d, exAnsResp1 = PyVal.dict d ∧
      (∀ m, dGet d "message" = PyVal.dict m →
        extractParts m = .ok (SimpleNode.message ⟨.str "aid1", .str "answer one", PyVal.none, .list []⟩)) ∧
      ((∀ m, dGet d "message" ≠ PyVal.dict m) →
        (SimpleNode.message ⟨.str "aid1", .str "answer one", PyVal.none, .list []⟩) = dGet d "message") ∧
      (SimpleNode.children ⟨.str "aid1", .str "answer one", PyVal.none, .list []⟩) =
        (if truthy (dGet d "children") then dGet d "children" else PyVal.list []) :=
  simplify_message_children_spec exAnsResp1
    ⟨.str "aid1", .str "answer one", PyVal.none, .list []⟩ (by decide)

/-- C6. The `access_token`, `chat_id` (conversationId) and `node_id`
(currentAnswerId) property setters raise `AttributeError` unconditionally
and leave the session unchanged, for every session and every assigned
value; and a session constructed without a conversation id to resume has
`conversationId = None` until a successful `ask` sets it. -/
theorem webchat_guarded_setters :
    (∀ w v, access_token_set w v = (.error .attributeError, w)) ∧
    (∀ w v, chat_id_set w v = (.error .attributeError, w)) ∧
    (∀ w v, node_id_set w v = (.error .attributeError, w)) ∧
    (∀ g b bu tok nid w0, mkWebChat g b bu tok PyVal.none nid = .ok w0 →
      w0.chat_id = PyVal.none) := by
  refine ⟨fun _ _ => rfl, fun _ _ => rfl, fun _ _ => rfl, ?_⟩
  intro g b bu tok nid w0 h
  rw [mkWebChat] at h
  split at h
  · exact absurd h (by simp)
  · split at h
    · exact absurd h (by simp)
    · split at h
      · exact absurd h (by simp)
      · injection h with h
        rw [← h]

/-- Witness for C6 on the example session and configuration. -/
theorem webchat_guarded_setters_witness :
    access_token_set exSession (PyVal.str "x") = (.error .attributeError, exSession) ∧
    chat_id_set exSession (PyVal.str "x") = (.error .attributeError, exSession) ∧
    node_id_set exSession (PyVal.str "x") = (.error .attributeError, exSession) ∧
    exMkSession.chat_id = PyVal.none :=
  ⟨(webchat_guarded_setters).1 exSession (PyVal.str "x"),
   (webchat_guarded_setters).2.1 exSession (PyVal.str "x"),
   (webchat_guarded_setters).2.2.1 exSession (PyVal.str "x"),
   (webchat_guarded_setters).2.2.2 exGlobals (.str "https://chat.openai.com") PyVal.none
     (.str "tok") PyVal.none exMkSession (by decide)⟩

/-- C7. After every successful `ask` (given the uuid4/server freshness
fact that the new answer id differs from the new question id), both active
pointers are keys of the store, the stored question node's children are
exactly the one new answer id, and the stored answer node's parent is the
new question id. -/
theorem webchat_ask_pointer_consistency (w : WebChat) (m t q : String)
    (resp : Except Err (PyVal × PyVal)) (r : PyVal) (w' : WebChat)
    (h : ask w m t q resp = (.ok r, w')) (hne : w'.node_id ≠ w'.que_id) :
    hasKey w'.mapping w'.node_id = true ∧ hasKey w'.mapping w'.que_id = true ∧
    (∃ qnode, mapFind w'.mapping w'.que_id = some qnode ∧
       qnode.children = PyVal.list [w'.node_id]) ∧
    (∃ anode, mapFind w'.mapping w'.node_id = some anode ∧
       anode.parent = w'.que_id) := by
  by_cases hchat : w.chat_id = PyVal.none
  · obtain ⟨tn, rn, an, qn, conv, heq, hr, hw⟩ := ask_ok_first hchat h
    obtain ⟨hparent, hqn, htn⟩ := askFirstData_ok_inv heq
    subst hw
    have hne' : an.id ≠ qn.id := hne
    have hfq : mapFind (mapInsert (mapInsert (mapInsert (mapInsert []
        (PyVal.str t) tn) rn.id rn) an.id an) qn.id qn) qn.id = some qn :=
      mapFind_mapInsert_self _ _ _
    have hfa : mapFind (mapInsert (mapInsert (mapInsert (mapInsert []
        (PyVal.str t) tn) rn.id rn) an.id an) qn.id qn) an.id = some an := by
      rw [mapFind_mapInsert_ne _ _ _ _ hne']
      exact mapFind_mapInsert_self _ _ _
    refine ⟨hasKey_of_mapFind_eq_some _ _ _ hfa, hasKey_of_mapFind_eq_some _ _ _ hfq,
      ⟨qn, hfq, ?_⟩, ⟨an, hfa, ?_⟩⟩
    · rw [hqn]
    · rw [hparent, hqn]
  · obtain ⟨an, qn, prev, cs, heq, hr, hw⟩ := ask_ok_cont hchat h
    obtain ⟨hfind, hcs, hparent, hqn⟩ := askContData_ok_inv heq
    subst hw
    have hne' : an.id ≠ qn.id := hne
    have hfq : mapFind (mapInsert (mapInsert (mapInsert w.mapping
        w.node_id { prev with children := PyVal.list (cs ++ [PyVal.str q]) })
        an.id an) qn.id qn) qn.id = some qn :=
      mapFind_mapInsert_self _ _ _
    have hfa : mapFind (mapInsert (mapInsert (mapInsert w.mapping
        w.node_id { prev with children := PyVal.list (cs ++ [PyVal.str q]) })
        an.id an) qn.id qn) an.id = some an := by
      rw [mapFind_mapInsert_ne _ _ _ _ hne']
      exact mapFind_mapInsert_self _ _ _
    refine ⟨hasKey_of_mapFind_eq_some _ _ _ hfa, hasKey_of_mapFind_eq_some _ _ _ hfq,
      ⟨qn, hfq, ?_⟩, ⟨an, hfa, ?_⟩⟩
    · rw [hqn]
    · rw [hparent, hqn]

/-- Witness for C7 on the first example `ask`. -/
theorem webchat_ask_pointer_consistency_witness :
    hasKey exAsk1.mapping exAsk1.node_id = true ∧ hasKey exAsk1.mapping exAsk1.que_id = true ∧
    (∃ qnode, mapFind exAsk1.mapping exAsk1.que_id = some qnode ∧
       qnode.children = PyVal.list [exAsk1.node_id]) ∧
    (∃ anode, mapFind exAsk1.mapping exAsk1.node_id = some anode ∧
       anode.parent = exAsk1.que_id) :=
  webchat_ask_pointer_consistency exSession "hello" "tid1" "qid1"
    (.ok (exRootResp, exAnsResp1)) (.str "answer one") exAsk1 (by decide) (by decide)

/-- C8 (code bug evidence). `WebChat.goto` in the source is a TODO stub
whose body is only a docstring, so the program has none of the claimed
behaviour: on the post-first-ask example session, calling it with an id
that is not a store key raises no `UnknownNodeError`, calling it with the
synthetic anchor (message None) raises no `InvalidTargetError`, and
calling it with a valid answer-bearing node never moves
`currentAnswerId` — the state comes back verbatim in every case. -/
theorem webchat_goto_stub_noop :
    hasKey exAsk1.mapping (PyVal.str "missing") = false ∧
    goto exAsk1 (PyVal.str "missing") = .ok exAsk1 ∧
    (mapFind exAsk1.mapping (PyVal.str "tid1")).map SimpleNode.message
      = some PyVal.none ∧
    goto exAsk1 (PyVal.str "tid1") = .ok exAsk1 ∧
    goto exAsk1 (PyVal.str "qid1") = .ok exAsk1 ∧
    exAsk1.node_id ≠ PyVal.str "qid1" := by
  refine ⟨by decide, by decide, by decide, by decide, by decide, by decide⟩

/-- C9. Assigning a string to the `base_url` property of a constructed
session rewrites `backend_url` to `os.path.join(u, "backend-api")` but the
`base_url` getter still returns the value fixed at construction
(`base_url or webchatter.base_url`). -/
theorem webchat_base_url_set_frame (g : Globals) (a b c dflt e : PyVal) (w0 : WebChat)
    (u : String) (h : mkWebChat g a b c dflt e = .ok w0) :
    (base_url_set w0 u).backend_url = PyVal.str (joinStr u "backend-api") ∧
    (base_url_set w0 u).base_url = w0.base_url ∧
    w0.base_url = pyOr a g.base_url := by
  refine ⟨rfl, rfl, ?_⟩
  rw [mkWebChat] at h
  split at h
  · exact absurd h (by simp)
  · split at h
    · exact absurd h (by simp)
    · split at h
      · exact absurd h (by simp)
      · injection h with h
        rw [← h]

/-- Witness for C9 on the example configuration. -/
theorem webchat_base_url_set_frame_witness :
    (base_url_set exMkSession "http://alt").backend_url =
      PyVal.str (joinStr "http://alt" "backend-api") ∧
    (base_url_set exMkSession "http://alt").base_url = exMkSession.base_url ∧
    exMkSession.base_url = pyOr (.str "https://chat.openai.com") exGlobals.base_url :=
  webchat_base_url_set_frame exGlobals (.str "https://chat.openai.com") PyVal.none
    (.str "tok") PyVal.none PyVal.none exMkSession "http://alt" (by decide)

/-- C10. For every raw node whose `id` key is present but falsy and whose
`message` is a nested dict carrying an id, successful normalization
resolves the node id from `message.id`: resolution is decided by
truthiness of the `id` value, not by presence of the key. -/
theorem simplify_id_truthiness (d m : List (String × PyVal)) (idv mid : PyVal) (s : SimpleNode)
    (hpresent : dFind d "id" = some idv) (hfalsy : truthy idv = false)
    (hmsg : dGet d "message" = PyVal.dict m) (hmid : dFind m "id" = some mid)
    (hok : simplify (.dict d) = .ok s) :
    s.id = mid := by
  have hidf : truthy (dGet d "id") = false := by
    rw [dGet, hpresent]
    exact hfalsy
  have hfb := simplify_ok_id_fallback d s hok hidf
  have hdm : dFind d "message" = some (.dict m) := by
    cases hv : dFind d "message" with
    | none => rw [dGet, hv] at hmsg; simp at hmsg
    | some v => rw [dGet, hv] at hmsg; simp at hmsg; rw [hmsg]
  simp only [idFallback, pyIndexD, pyIndexS, hdm, hmid] at hfb
  injection hfb with h
  exact h.symm

/-- Witness for C10 at the raw node with a present-but-empty id. -/
theorem simplify_id_truthiness_witness :
    SimpleNode.id ⟨.str "node-77", .str "hi", PyVal.none, .list []⟩ = PyVal.str "node-77" :=
  simplify_id_truthiness
    [("id", PyVal.str ""),
      ("message", PyVal.dict [("id", PyVal.str "node-77"),
        ("content", PyVal.dict [("parts", PyVal.list [PyVal.str "hi"])])])]
    [("id", PyVal.str "node-77"),
      ("content", PyVal.dict [("parts", PyVal.list [PyVal.str "hi"])])]
    (PyVal.str "") (PyVal.str "node-77")
    ⟨.str "node-77", .str "hi", PyVal.none, .list []⟩
    (by decide) (by decide) (by decide) (by decide) (by decide)

end WebChatter
